import Mathlib

/-!
Verification of the promptcraft command-resolution and template-substitution
core (`src/promptcraft/core.py`) against its specification.

The filesystem is modelled abstractly: a `FileSystem` record supplies the
outcome of each primitive operation the Python code performs (`Path.exists`,
`Path.is_file`, `Path.read_text`, directory enumeration).  The ambient
process state (`Path.cwd()`, `Path.home()`) is an `Env` record.  Paths are
strings and the `/` path-join of `pathlib` is string concatenation with a
slash separator.  Python exceptions become `Except` values carrying the same
message and error-code strings the code constructs.
-/

deriving instance DecidableEq for Except

namespace Promptcraft

/-- Outcome of `Path.read_text(encoding='utf-8')` on a given path: either the
decoded content, or one of the exception classes the Python code catches
(`FileNotFoundError`, `PermissionError`, `UnicodeDecodeError`, `OSError`),
the latter two carrying the text that `str(e)` renders. -/
inductive ReadResult where
  | ok (content : String)
  | fileNotFound
  | permissionDenied
  | decodeError (detail : String)
  | osError (detail : String)
deriving DecidableEq, Repr

/-- Outcome of enumerating the immediate children of a directory: a listing
of child filenames, absence of the directory, or a permission / OS-level
error raised during enumeration. -/
inductive DirListing where
  | ok (entries : List String)
  | noDir
  | listError
deriving DecidableEq, Repr

/-- Abstract filesystem: the results of the primitive operations the code
performs, per path.  `pathExists` models `Path.exists`, `isRegularFile`
models `Path.is_file`, `read` models `Path.read_text`, `listDir` models
enumerating a directory one level deep. -/
structure FileSystem where
  pathExists : String → Bool
  isRegularFile : String → Bool
  read : String → ReadResult
  listDir : String → DirListing

/-- Ambient process state: current working directory and home directory. -/
structure Env where
  cwd : String
  home : String

/-- A Python value passed where a `str` is expected: either an actual string
or a non-string value with its truthiness and its `str()` rendering.  Used
to embed the `isinstance(command_name, str)` check. -/
inductive PyValue where
  | str (s : String)
  | nonStr (truthy : Bool) (rendered : String)
deriving DecidableEq, Repr

/-- Python truthiness: a string is truthy iff non-empty. -/
def pyTruthy : PyValue → Bool
  | .str s => !s.isEmpty
  | .nonStr t _ => t

/-- `isinstance(v, str)`. -/
def pyIsStr : PyValue → Bool
  | .str _ => true
  | .nonStr _ _ => false

/-- `str(v)` as used by f-string interpolation. -/
def pyDisplay : PyValue → String
  | .str s => s
  | .nonStr _ r => r

/-- `CommandNotFoundError(message, error_code="COMMAND_NOT_FOUND")` from
`exceptions.py`. -/
structure CommandNotFoundError where
  message : String
  error_code : String
deriving DecidableEq, Repr

/-- `TemplateReadError(message, error_code="TEMPLATE_READ_ERROR")` from
`exceptions.py`. -/
structure TemplateReadError where
  message : String
  error_code : String
deriving DecidableEq, Repr

/-- The two candidate template paths of `find_command_path`, in source
order: `Path.cwd() / ".promptcraft" / "commands" / filename` then
`Path.home() / ".promptcraft" / "commands" / filename`. -/
def search_paths (env : Env) (filename : String) : List String :=
  [env.cwd ++ "/.promptcraft/commands/" ++ filename,
   env.home ++ "/.promptcraft/commands/" ++ filename]

/-- The directories searched, used in the not-found message
(`str(path.parent)` of each candidate). -/
def search_locations (env : Env) : List String :=
  [env.cwd ++ "/.promptcraft/commands",
   env.home ++ "/.promptcraft/commands"]

/-- `path.exists() and path.is_file()`. -/
def goodFile (fs : FileSystem) (p : String) : Bool :=
  fs.pathExists p && fs.isRegularFile p

/-- The validation error raised by `find_command_path` on an empty or
non-string command name. -/
def validationError : CommandNotFoundError :=
  ⟨"Command name must be a non-empty string", "COMMAND_NOT_FOUND"⟩

/-- The not-found error of `find_command_path`, listing the command name and
the two searched directories. -/
def notFoundError (env : Env) (name : String) : CommandNotFoundError :=
  ⟨"Command \x27" ++ (name ++ ("\x27 not found. Searched in: " ++
    String.intercalate ", " (search_locations env))), "COMMAND_NOT_FOUND"⟩

/-- `find_command_path` from `core.py`: validate the name, build the two
candidate paths in fixed order, return the first that exists and is a
regular file, else raise `CommandNotFoundError`. -/
def find_command_path (fs : FileSystem) (env : Env) (command_name : PyValue) :
    Except CommandNotFoundError String :=
  if !(pyTruthy command_name) || !(pyIsStr command_name) then
    .error validationError
  else
    match command_name with
    | .nonStr _ _ => .error validationError
    | .str name =>
      let filename := name ++ ".md"
      match (search_paths env filename).find? (fun p => goodFile fs p) with
      | some p => .ok p
      | none => .error (notFoundError env name)

/-- One step bound of Python `str.replace`: with `fuel` at least the length
of the scanned list, replace each leftmost non-overlapping occurrence of
`pat` by `rep`, scanning left to right.  Embeds the semantics of
`template_content.replace(old, new)` for a non-empty `old`. -/
def replaceAux (pat rep : List Char) : Nat → List Char → List Char
  | 0, s => s
  | _ + 1, [] => []
  | fuel + 1, c :: cs =>
    if pat ≠ [] ∧ pat.isPrefixOf (c :: cs) then
      rep ++ replaceAux pat rep fuel ((c :: cs).drop pat.length)
    else
      c :: replaceAux pat rep fuel cs

/-- Python `s.replace(pat, rep)` for non-empty `pat`: leftmost,
non-overlapping, literal substitution of every occurrence. -/
def pyReplace (s pat rep : String) : String :=
  String.mk (replaceAux pat.toList rep.toList s.toList.length s.toList)

/-- Whether `pat` occurs as a contiguous sublist of `s` (literal substring
occurrence). -/
def occursIn (pat : List Char) : List Char → Bool
  | [] => pat.isEmpty
  | c :: cs => pat.isPrefixOf (c :: cs) || occursIn pat cs

/-- Whether the string `sub` occurs literally inside `s`. -/
def containsStr (s sub : String) : Bool :=
  occursIn sub.toList s.toList

/-- The placeholder token subject to substitution. -/
def placeholder : String := "$ARGUMENTS"

/-- `' '.join(arguments) if arguments else ''` from `generate_prompt`. -/
def argumentsString (arguments : List String) : String :=
  if arguments.isEmpty then "" else String.intercalate " " arguments

/-- `generate_prompt` from `core.py`: read the template as UTF-8, join the
arguments with single spaces, replace every occurrence of `$ARGUMENTS`,
and map each read failure to a `TemplateReadError` with its sub-code. -/
def generate_prompt (fs : FileSystem) (template_path : String)
    (arguments : List String) : Except TemplateReadError String :=
  match fs.read template_path with
  | .ok template_content =>
      .ok (pyReplace template_content placeholder (argumentsString arguments))
  | .fileNotFound =>
      .error ⟨"Template file not found: " ++ template_path,
              "TEMPLATE_FILE_NOT_FOUND"⟩
  | .permissionDenied =>
      .error ⟨"Permission denied reading template file: " ++ template_path,
              "TEMPLATE_PERMISSION_DENIED"⟩
  | .decodeError e =>
      .error ⟨"Failed to decode template file " ++ template_path ++ ": " ++ e,
              "TEMPLATE_ENCODING_ERROR"⟩
  | .osError e =>
      .error ⟨"I/O error reading template file " ++ template_path ++ ": " ++ e,
              "TEMPLATE_IO_ERROR"⟩

/-- Errors raised by `process_command`: the wrapping error together with the
original exception attached as the chained cause (`raise ... from e`). -/
inductive PCError where
  | commandNotFound (message : String) (error_code : String)
      (cause : CommandNotFoundError)
  | templateRead (message : String) (error_code : String)
      (cause : TemplateReadError)
deriving DecidableEq, Repr

/-- `process_command` from `core.py`: resolve the command, generate the
prompt, and wrap either failure with command-name context, preserving the
cause (and, for template errors, the original sub-code). -/
def process_command (fs : FileSystem) (env : Env) (command_name : PyValue)
    (arguments : List String) : Except PCError String :=
  match find_command_path fs env command_name with
  | .error e =>
      .error (.commandNotFound
        ("Command \x27" ++ pyDisplay command_name ++
          "\x27 processing failed: " ++ e.message)
        "COMMAND_NOT_FOUND" e)
  | .ok template_path =>
      match generate_prompt fs template_path arguments with
      | .error e =>
          .error (.templateRead
            ("Command \x27" ++ pyDisplay command_name ++
              "\x27 template processing failed: " ++ e.message)
            e.error_code e)
      | .ok processed_prompt => .ok processed_prompt

/-- Strip leading and trailing whitespace from a character list (the
`strip()` applied to lines by the Description Extractor). -/
def trimChars (l : List Char) : List Char :=
  ((l.dropWhile Char.isWhitespace).reverse.dropWhile Char.isWhitespace).reverse

/-- Split a character list into lines at newline characters. -/
def splitLines : List Char → List (List Char)
  | [] => [[]]
  | c :: cs =>
    if c = '\n' then [] :: splitLines cs
    else
      match splitLines cs with
      | [] => [[c]]
      | l :: ls => (c :: l) :: ls

/-- The fixed fallback string of the Description Extractor. -/
def fallbackDescription : String := "No description available"

/-- Modelled from the spec: the header-marker stripping step of
`_extract_description` (the function itself is absent from `src/`; only its
tests remain).  On the first non-empty line, trimmed: if it starts with
`#`, strip up to six leading `#` characters and exactly one following
space, then trim surrounding whitespace; otherwise the trimmed line is
kept as is. -/
def stripHeaderMarkers (line : List Char) : List Char :=
  let t := trimChars line
  match t with
  | '#' :: _ =>
    let k := min (t.takeWhile (fun c => c = '#')).length 6
    let rest := t.drop k
    let rest :=
      match rest with
      | ' ' :: tl => tl
      | r => r
    trimChars rest
  | _ => t

/-- The first line of the file whose content is not only whitespace, if
any. -/
def firstNonBlankLine (content : String) : Option (List Char) :=
  (splitLines content.toList).find? (fun l => !(trimChars l).isEmpty)

/-- Modelled from the spec: `_extract_description(path)` (absent from
`src/`; only its tests remain).  Reads the file, takes the first non-empty
line, strips markdown header markers per `stripHeaderMarkers`, and returns
the fixed fallback on any read failure, on a file with no non-empty line,
or when the stripped result is empty.  Never raises. -/
def extract_description (fs : FileSystem) (path : String) : String :=
  match fs.read path with
  | .ok content =>
    match firstNonBlankLine content with
    | none => fallbackDescription
    | some line =>
      let d := stripHeaderMarkers line
      if d.isEmpty then fallbackDescription else String.mk d
  | _ => fallbackDescription

/-- Source tier of a discovered command. -/
inductive Source where
  | project
  | globalTier
deriving DecidableEq, Repr

/-- Metadata record built by the Discoverer for each discovered template
file. -/
structure CommandInfo where
  name : String
  path : String
  source : Source
  description : String
deriving DecidableEq, Repr

/-- Whether a filename ends in `.md`. -/
def isMdName (f : String) : Bool :=
  [ 'd', 'm', '.' ].isPrefixOf f.toList.reverse

/-- Case-insensitive sort key of a command name. -/
def lowerKey (s : String) : List Char :=
  s.toList.map Char.toLower

/-- Strict lexicographic comparison of character lists, used for the
case-insensitive ordering of discovered commands. -/
def charListLt : List Char → List Char → Bool
  | [], [] => false
  | [], _ :: _ => true
  | _ :: _, [] => false
  | a :: as, b :: bs =>
    if a < b then true
    else if b < a then false
    else charListLt as bs

/-- Stable insertion of a command into a list sorted by case-insensitive
name: the new entry goes after every existing entry whose key is strictly
smaller, and before the first entry whose key is not smaller. -/
def insertByNameCI (c : CommandInfo) : List CommandInfo → List CommandInfo
  | [] => [c]
  | d :: ds =>
    if charListLt (lowerKey d.name) (lowerKey c.name) then
      d :: insertByNameCI c ds
    else c :: d :: ds

/-- Stable sort of discovered commands by case-insensitive name. -/
def sortByNameCI : List CommandInfo → List CommandInfo
  | [] => []
  | c :: cs => insertByNameCI c (sortByNameCI cs)

/-- Modelled from the spec: the per-root scan of `discover_commands`
(absent from `src/`; only its tests remain).  If the root exists as a
directory and enumerating succeeds, keep the immediate children that end in
`.md` and are regular files, and build one `CommandInfo` per kept file;
if the root is missing or enumeration fails with a permission or OS-level
error, the root contributes zero entries. -/
def scanRoot (fs : FileSystem) (root : String) (src : Source) :
    List CommandInfo :=
  match fs.listDir root with
  | .ok entries =>
    (entries.filter
        (fun f => isMdName f && fs.isRegularFile (root ++ "/" ++ f))).map
      (fun f =>
        ⟨String.mk (f.toList.take (f.toList.length - 3)),
         root ++ "/" ++ f, src, extract_description fs (root ++ "/" ++ f)⟩)
  | .noDir => []
  | .listError => []

/-- The project-local search root. -/
def projectRoot (env : Env) : String := env.cwd ++ "/.promptcraft/commands"

/-- The global (home) search root. -/
def globalRoot (env : Env) : String := env.home ++ "/.promptcraft/commands"

/-- Modelled from the spec: `discover_commands()` (absent from `src/`; only
its tests remain).  Scans the project-local root, then the global root,
concatenates both contributions and sorts them by name case-insensitively;
errors are swallowed per root, and the function never raises. -/
def discover_commands (fs : FileSystem) (env : Env) : List CommandInfo :=
  sortByNameCI
    (scanRoot fs (projectRoot env) Source.project ++
     scanRoot fs (globalRoot env) Source.globalTier)

/-! ### Concrete filesystems used to instantiate the theorems -/

/-- A concrete environment: project directory `/proj`, home `/home/u`. -/
def demoEnv : Env := ⟨"/proj", "/home/u"⟩

/-- A filesystem holding one template, `greet.md`, in the project tier. -/
def demoFS : FileSystem where
  pathExists p := p == "/proj/.promptcraft/commands/greet.md"
  isRegularFile p := p == "/proj/.promptcraft/commands/greet.md"
  read p :=
    if p == "/proj/.promptcraft/commands/greet.md" then
      .ok "Hello $ARGUMENTS!"
    else .fileNotFound
  listDir _ := .listError

/-- A filesystem holding `greet.md` in both the project and the global
tier, with different contents. -/
def bothFS : FileSystem where
  pathExists p :=
    p == "/proj/.promptcraft/commands/greet.md" ||
    p == "/home/u/.promptcraft/commands/greet.md"
  isRegularFile p :=
    p == "/proj/.promptcraft/commands/greet.md" ||
    p == "/home/u/.promptcraft/commands/greet.md"
  read p :=
    if p == "/proj/.promptcraft/commands/greet.md" then .ok "project tier"
    else if p == "/home/u/.promptcraft/commands/greet.md" then
      .ok "global tier"
    else .fileNotFound
  listDir _ := .listError

/-- An empty filesystem: nothing exists, every read fails. -/
def emptyFS : FileSystem where
  pathExists _ := false
  isRegularFile _ := false
  read _ := .fileNotFound
  listDir _ := .noDir

/-- A filesystem where `greet.md` exists in the project tier but reading it
is denied. -/
def brokenFS : FileSystem where
  pathExists p := p == "/proj/.promptcraft/commands/greet.md"
  isRegularFile p := p == "/proj/.promptcraft/commands/greet.md"
  read _ := .permissionDenied
  listDir _ := .listError

/-- A filesystem whose only file contains nothing but whitespace. -/
def wsFS : FileSystem where
  pathExists p := p == "/w.md"
  isRegularFile p := p == "/w.md"
  read p := if p == "/w.md" then .ok "   \n\t\n" else .fileNotFound
  listDir _ := .noDir

/-- A filesystem where enumerating the project root fails with a
permission error while the global root holds one template. -/
def discFS : FileSystem where
  pathExists p := p == "/home/u/.promptcraft/commands/b.md"
  isRegularFile p := p == "/home/u/.promptcraft/commands/b.md"
  read p :=
    if p == "/home/u/.promptcraft/commands/b.md" then .ok "# Beta command"
    else .fileNotFound
  listDir d :=
    if d == "/proj/.promptcraft/commands" then .listError
    else if d == "/home/u/.promptcraft/commands" then .ok ["b.md"]
    else .noDir

/-- The project-tier candidate path checked by `find_command_path`. -/
def projectCandidate (env : Env) (name : String) : String :=
  env.cwd ++ "/.promptcraft/commands/" ++ (name ++ ".md")

/-- The global-tier candidate path checked by `find_command_path`. -/
def globalCandidate (env : Env) (name : String) : String :=
  env.home ++ "/.promptcraft/commands/" ++ (name ++ ".md")

/-! ### Helper lemmas -/

theorem search_paths_eq (env : Env) (name : String) :
    search_paths env (name ++ ".md") =
      [projectCandidate env name, globalCandidate env name] := rfl

theorem find_command_path_str_eq (fs : FileSystem) (env : Env)
    (name : String) (hne : name.isEmpty = false) :
    find_command_path fs env (.str name) =
      if goodFile fs (projectCandidate env name) then
        .ok (projectCandidate env name)
      else if goodFile fs (globalCandidate env name) then
        .ok (globalCandidate env name)
      else .error (notFoundError env name) := by
  unfold find_command_path
  simp only [pyTruthy, pyIsStr, hne, Bool.not_false, Bool.not_true,
    Bool.or_false]
  rw [search_paths_eq]
  cases hp : goodFile fs (projectCandidate env name) with
  | true => simp [List.find?, hp]
  | false =>
    cases hg : goodFile fs (globalCandidate env name) with
    | true => simp [List.find?, hp, hg]
    | false => simp [List.find?, hp, hg]

theorem replaceAux_not_occurs (pat rep : List Char) :
    ∀ (fuel : Nat) (s : List Char), occursIn pat s = false →
      replaceAux pat rep fuel s = s := by
  intro fuel
  induction fuel with
  | zero => intro s h; rfl
  | succ n ih =>
    intro s h
    cases s with
    | nil => rfl
    | cons c cs =>
      simp only [occursIn, Bool.or_eq_false_iff] at h
      simp only [replaceAux, h.1, Bool.false_eq_true, and_false, if_false]
      rw [ih cs h.2]

theorem isPrefixOf_self_append (pat b : List Char) :
    pat.isPrefixOf (pat ++ b) = true := by
  rw [List.isPrefixOf_iff_prefix]
  exact List.prefix_append pat b

theorem occursIn_mid (pat a b : List Char) :
    occursIn pat (a ++ (pat ++ b)) = true := by
  induction a with
  | nil =>
    simp only [List.nil_append]
    cases hp : pat ++ b with
    | nil =>
      have hpe : pat = [] := by
        cases pat with
        | nil => rfl
        | cons x xs => simp at hp
      simp [occursIn, hpe]
    | cons c cs =>
      rw [occursIn, ← hp, isPrefixOf_self_append]
      simp
  | cons c cs ih =>
    rw [List.cons_append, occursIn, ih]
    simp

theorem containsStr_mid (a p b : String) :
    containsStr (a ++ p ++ b) p = true := by
  have h : (a ++ p ++ b).toList = a.toList ++ (p.toList ++ b.toList) := by
    simp [String.toList, String.data_append, List.append_assoc]
  rw [containsStr, h]
  exact occursIn_mid p.toList a.toList b.toList

theorem argumentsString_eq_intercalate (arguments : List String) :
    argumentsString arguments = String.intercalate " " arguments := by
  cases arguments with
  | nil => rfl
  | cons a as => rfl

theorem notFoundError_ne_validation (env : Env) (name : String) :
    notFoundError env name ≠ validationError := by
  intro hEq
  have h9 : (notFoundError env name).message.data.take 9 =
      validationError.message.data.take 9 := by rw [hEq]
  have hL : (notFoundError env name).message.data.take 9 =
      "Command \x27".data := by
    show (("Command \x27" ++ _).data).take 9 = _
    rw [String.data_append]
    exact List.take_left' (by decide)
  rw [hL] at h9
  exact absurd h9 (by decide)

/-! ### Claim theorems -/

/-- Claim C1: for every template file readable as UTF-8 text and every list
of argument strings, `generate_prompt` returns the file content with every
literal occurrence of `$ARGUMENTS` replaced by the arguments joined with a
single space; an empty argument list yields an empty substitution string,
and content in which the placeholder does not occur is returned
unchanged. -/
theorem generate_prompt_substitution (fs : FileSystem) (p : String)
    (args : List String) (content : String)
    (h : fs.read p = ReadResult.ok content) :
    generate_prompt fs p args =
      .ok (pyReplace content placeholder (String.intercalate " " args)) ∧
    (args = [] →
      generate_prompt fs p args = .ok (pyReplace content placeholder "")) ∧
    (occursIn placeholder.toList content.toList = false →
      generate_prompt fs p args = .ok content) := by
  have hmain : generate_prompt fs p args =
      .ok (pyReplace content placeholder (argumentsString args)) := by
    unfold generate_prompt
    rw [h]
  refine ⟨?_, ?_, ?_⟩
  · rw [hmain, argumentsString_eq_intercalate]
  · intro ha
    subst ha
    exact hmain
  · intro hocc
    rw [hmain]
    unfold pyReplace
    rw [replaceAux_not_occurs _ _ _ _ hocc]
    rfl

/-- Witness for C1: the demo template with one argument produces the
substituted text. -/
theorem generate_prompt_substitution_witness :
    generate_prompt demoFS "/proj/.promptcraft/commands/greet.md" ["World"] =
      .ok (pyReplace "Hello $ARGUMENTS!" placeholder
        (String.intercalate " " ["World"])) ∧
    pyReplace "Hello $ARGUMENTS!" placeholder
      (String.intercalate " " ["World"]) = "Hello World!" :=
  ⟨(generate_prompt_substitution demoFS
      "/proj/.promptcraft/commands/greet.md" ["World"] "Hello $ARGUMENTS!"
      (by decide)).1,
   by decide⟩

/-- Claim C2: for every command name present in both tiers,
`find_command_path` returns the project-local path; in general it returns
the first of the two candidates, project-local then global, that exists and
is a regular file. -/
theorem find_command_path_project_priority (fs : FileSystem) (env : Env)
    (name : String) (hne : name.isEmpty = false) :
    (goodFile fs (projectCandidate env name) = true →
      find_command_path fs env (.str name) =
        .ok (projectCandidate env name)) ∧
    (goodFile fs (projectCandidate env name) = false →
      goodFile fs (globalCandidate env name) = true →
      find_command_path fs env (.str name) =
        .ok (globalCandidate env name)) := by
  constructor
  · intro hp
    rw [find_command_path_str_eq fs env name hne]
    simp [hp]
  · intro hp hg
    rw [find_command_path_str_eq fs env name hne]
    simp [hp, hg]

/-- Witness for C2: `greet.md` present in both tiers resolves to the
project-local path. -/
theorem find_command_path_project_priority_witness :
    goodFile bothFS (projectCandidate demoEnv "greet") = true ∧
    goodFile bothFS (globalCandidate demoEnv "greet") = true ∧
    find_command_path bothFS demoEnv (.str "greet") =
      .ok (projectCandidate demoEnv "greet") :=
  ⟨by decide, by decide,
   (find_command_path_project_priority bothFS demoEnv "greet"
      (by decide)).1 (by decide)⟩

/-- Claim C10: beyond the non-empty-string check, `find_command_path`
performs no sanitization — for every non-empty name, including names with
path separators or dot-dot segments, the validation error is never raised
and the result is determined solely by the filesystem checks at the two
paths formed by direct appending under the project and global
directories. -/
theorem find_command_path_no_sanitization (fs : FileSystem) (env : Env)
    (name : String) (hne : name.isEmpty = false) :
    find_command_path fs env (.str name) ≠ .error validationError ∧
    find_command_path fs env (.str name) =
      (if goodFile fs (projectCandidate env name) then
        .ok (projectCandidate env name)
      else if goodFile fs (globalCandidate env name) then
        .ok (globalCandidate env name)
      else .error (notFoundError env name)) := by
  refine ⟨?_, find_command_path_str_eq fs env name hne⟩
  rw [find_command_path_str_eq fs env name hne]
  by_cases hp : goodFile fs (projectCandidate env name) = true
  · simp [hp]
  · by_cases hg : goodFile fs (globalCandidate env name) = true
    · simp [hp, hg]
    · simp [hp, hg, notFoundError_ne_validation env name]

/-- Witness for C10: a name with a dot-dot segment is not rejected; it is
resolved through the literally appended candidate paths. -/
theorem find_command_path_no_sanitization_witness :
    find_command_path emptyFS demoEnv (.str "../x") ≠
      .error validationError ∧
    find_command_path emptyFS demoEnv (.str "../x") =
      (if goodFile emptyFS (projectCandidate demoEnv "../x") then
        .ok (projectCandidate demoEnv "../x")
      else if goodFile emptyFS (globalCandidate demoEnv "../x") then
        .ok (globalCandidate demoEnv "../x")
      else .error (notFoundError demoEnv "../x")) :=
  find_command_path_no_sanitization emptyFS demoEnv "../x" (by decide)

theorem containsStr_right (a p : String) : containsStr (a ++ p) p = true := by
  have htl : (a ++ p).toList = a.toList ++ (p.toList ++ []) := by
    simp [String.toList, String.data_append]
  rw [containsStr, htl]
  exact occursIn_mid p.toList a.toList []

theorem containsStr_parts (a p c d : String) :
    containsStr (a ++ p ++ c ++ d) p = true := by
  have htl : (a ++ p ++ c ++ d).toList =
      a.toList ++ (p.toList ++ (c.toList ++ d.toList)) := by
    simp [String.toList, String.data_append, List.append_assoc]
  rw [containsStr, htl]
  exact occursIn_mid p.toList a.toList (c.toList ++ d.toList)

/-- Claim C3: every failure of `generate_prompt` is a `TemplateReadError`
whose sub-code is determined by the cause — missing file, permission
denied, invalid UTF-8, or other OS-level I/O failure — and whose message
includes the template path. -/
theorem generate_prompt_error_mapping (fs : FileSystem) (p : String)
    (args : List String) :
    (fs.read p = ReadResult.fileNotFound →
      generate_prompt fs p args =
        .error ⟨"Template file not found: " ++ p,
          "TEMPLATE_FILE_NOT_FOUND"⟩ ∧
      containsStr ("Template file not found: " ++ p) p = true) ∧
    (fs.read p = ReadResult.permissionDenied →
      generate_prompt fs p args =
        .error ⟨"Permission denied reading template file: " ++ p,
          "TEMPLATE_PERMISSION_DENIED"⟩ ∧
      containsStr ("Permission denied reading template file: " ++ p) p =
        true) ∧
    (∀ d, fs.read p = ReadResult.decodeError d →
      generate_prompt fs p args =
        .error ⟨"Failed to decode template file " ++ p ++ ": " ++ d,
          "TEMPLATE_ENCODING_ERROR"⟩ ∧
      containsStr ("Failed to decode template file " ++ p ++ ": " ++ d) p =
        true) ∧
    (∀ d, fs.read p = ReadResult.osError d →
      generate_prompt fs p args =
        .error ⟨"I/O error reading template file " ++ p ++ ": " ++ d,
          "TEMPLATE_IO_ERROR"⟩ ∧
      containsStr ("I/O error reading template file " ++ p ++ ": " ++ d) p =
        true) := by
  refine ⟨?_, ?_, ?_, ?_⟩
  · intro h
    refine ⟨?_, containsStr_right _ p⟩
    unfold generate_prompt
    rw [h]
  · intro h
    refine ⟨?_, containsStr_right _ p⟩
    unfold generate_prompt
    rw [h]
  · intro d h
    refine ⟨?_, containsStr_parts _ p _ d⟩
    unfold generate_prompt
    rw [h]
  · intro d h
    refine ⟨?_, containsStr_parts _ p _ d⟩
    unfold generate_prompt
    rw [h]

/-- Witness for C3: a read of a missing file yields the
`TEMPLATE_FILE_NOT_FOUND` sub-code with the path in the message. -/
theorem generate_prompt_error_mapping_witness :
    generate_prompt emptyFS "/missing.md" [] =
      .error ⟨"Template file not found: " ++ "/missing.md",
        "TEMPLATE_FILE_NOT_FOUND"⟩ ∧
    containsStr ("Template file not found: " ++ "/missing.md")
      "/missing.md" = true :=
  (generate_prompt_error_mapping emptyFS "/missing.md" []).1 (by decide)

/-- Claim C4: whenever resolution and generation both succeed,
`process_command` returns exactly the generator result, untransformed. -/
theorem process_command_returns_generator_result (fs : FileSystem)
    (env : Env) (cn : PyValue) (args : List String) (p s : String)
    (h1 : find_command_path fs env cn = .ok p)
    (h2 : generate_prompt fs p args = .ok s) :
    process_command fs env cn args = .ok s := by
  unfold process_command
  rw [h1]
  dsimp only
  rw [h2]

/-- Witness for C4: the end-to-end pipeline on the demo template. -/
theorem process_command_returns_generator_result_witness :
    process_command demoFS demoEnv (.str "greet") ["World"] =
      .ok "Hello World!" :=
  process_command_returns_generator_result demoFS demoEnv (.str "greet")
    ["World"] "/proj/.promptcraft/commands/greet.md" "Hello World!"
    (by decide) (by decide)

/-- Claim C5: when the Resolver fails, `process_command` raises a new
`CommandNotFound` whose message is exactly the
`Command '{name}' processing failed: ` prefix followed by the original
message, with the original error attached as the chained cause. -/
theorem process_command_wraps_resolver_failure (fs : FileSystem)
    (env : Env) (cn : PyValue) (args : List String)
    (e : CommandNotFoundError)
    (h : find_command_path fs env cn = .error e) :
    process_command fs env cn args =
      .error (.commandNotFound
        ("Command \x27" ++ pyDisplay cn ++ "\x27 processing failed: " ++
          e.message)
        "COMMAND_NOT_FOUND" e) := by
  unfold process_command
  rw [h]

/-- Witness for C5: a command missing from both tiers. -/
theorem process_command_wraps_resolver_failure_witness :
    process_command emptyFS demoEnv (.str "missing") ["a"] =
      .error (.commandNotFound
        ("Command \x27" ++ pyDisplay (.str "missing") ++
          "\x27 processing failed: " ++
          (notFoundError demoEnv "missing").message)
        "COMMAND_NOT_FOUND" (notFoundError demoEnv "missing")) :=
  process_command_wraps_resolver_failure emptyFS demoEnv (.str "missing")
    ["a"] (notFoundError demoEnv "missing") (by decide)

/-- Claim C6: when the Generator fails, `process_command` raises a new
`TemplateReadError` whose message is exactly the
`Command '{name}' template processing failed: ` prefix followed by the
original message, preserving the original sub-code, with the original
error as the chained cause. -/
theorem process_command_wraps_generator_failure (fs : FileSystem)
    (env : Env) (cn : PyValue) (args : List String) (p : String)
    (e : TemplateReadError)
    (h1 : find_command_path fs env cn = .ok p)
    (h2 : generate_prompt fs p args = .error e) :
    process_command fs env cn args =
      .error (.templateRead
        ("Command \x27" ++ pyDisplay cn ++
          "\x27 template processing failed: " ++ e.message)
        e.error_code e) := by
  unfold process_command
  rw [h1]
  dsimp only
  rw [h2]

/-- Witness for C6: a resolvable template whose read is denied. -/
theorem process_command_wraps_generator_failure_witness :
    process_command brokenFS demoEnv (.str "greet") [] =
      .error (.templateRead
        ("Command \x27" ++ pyDisplay (.str "greet") ++
          "\x27 template processing failed: " ++
          ("Permission denied reading template file: " ++
            "/proj/.promptcraft/commands/greet.md"))
        "TEMPLATE_PERMISSION_DENIED"
        ⟨"Permission denied reading template file: " ++
          "/proj/.promptcraft/commands/greet.md",
          "TEMPLATE_PERMISSION_DENIED"⟩) :=
  process_command_wraps_generator_failure brokenFS demoEnv (.str "greet")
    [] "/proj/.promptcraft/commands/greet.md"
    ⟨"Permission denied reading template file: " ++
      "/proj/.promptcraft/commands/greet.md", "TEMPLATE_PERMISSION_DENIED"⟩
    (by decide) (by decide)

/-- Claim C7: an empty or non-string command name makes
`find_command_path` fail immediately with the fixed validation message,
independently of the filesystem, and never succeed. -/
theorem find_command_path_rejects_invalid_name (fs : FileSystem)
    (env : Env) (cn : PyValue)
    (h : pyTruthy cn = false ∨ pyIsStr cn = false) :
    find_command_path fs env cn = .error validationError ∧
    validationError.message = "Command name must be a non-empty string" ∧
    (find_command_path fs env cn).isOk = false := by
  have hmain : find_command_path fs env cn = .error validationError := by
    unfold find_command_path
    rcases h with h | h
    · simp [h]
    · simp [h]
  refine ⟨hmain, rfl, ?_⟩
  rw [hmain]
  rfl

/-- Witness for C7: the empty command name is rejected on any
filesystem. -/
theorem find_command_path_rejects_invalid_name_witness :
    (pyTruthy (PyValue.str "") = false ∨
      pyIsStr (PyValue.str "") = false) ∧
    (find_command_path emptyFS demoEnv (.str "") = .error validationError ∧
      validationError.message = "Command name must be a non-empty string" ∧
      (find_command_path emptyFS demoEnv (.str "")).isOk = false) :=
  ⟨Or.inl (by decide),
   find_command_path_rejects_invalid_name emptyFS demoEnv (.str "")
     (Or.inl (by decide))⟩

theorem scanRoot_listError (fs : FileSystem) (root : String) (src : Source)
    (h : fs.listDir root = DirListing.listError) :
    scanRoot fs root src = [] := by
  unfold scanRoot
  rw [h]

/-- Claim C8: `discover_commands` never raises — a failing root contributes
zero entries while the other root is still returned, and total failure
yields the empty list.  In this total embedding absence of exceptions is
inherent; the graceful per-root degradation is the proved content. -/
theorem discover_commands_degrades_gracefully (fs : FileSystem)
    (env : Env) :
    (fs.listDir (projectRoot env) = DirListing.listError →
      discover_commands fs env =
        sortByNameCI (scanRoot fs (globalRoot env) Source.globalTier)) ∧
    (fs.listDir (globalRoot env) = DirListing.listError →
      discover_commands fs env =
        sortByNameCI (scanRoot fs (projectRoot env) Source.project)) ∧
    ((fs.listDir (projectRoot env) = DirListing.listError ∧
      fs.listDir (globalRoot env) = DirListing.listError) →
      discover_commands fs env = []) := by
  refine ⟨?_, ?_, ?_⟩
  · intro h
    unfold discover_commands
    rw [scanRoot_listError fs _ _ h, List.nil_append]
  · intro h
    unfold discover_commands
    rw [scanRoot_listError fs _ _ h, List.append_nil]
  · intro h
    unfold discover_commands
    rw [scanRoot_listError fs _ _ h.1, scanRoot_listError fs _ _ h.2]
    rfl

/-- Witness for C8: project-root enumeration fails with a permission error
while the global root still contributes its entry. -/
theorem discover_commands_degrades_gracefully_witness :
    discFS.listDir (projectRoot demoEnv) = DirListing.listError ∧
    discover_commands discFS demoEnv =
      sortByNameCI (scanRoot discFS (globalRoot demoEnv)
        Source.globalTier) ∧
    discover_commands discFS demoEnv =
      [⟨"b", "/home/u/.promptcraft/commands/b.md", Source.globalTier,
        "Beta command"⟩] :=
  ⟨by decide,
   (discover_commands_degrades_gracefully discFS demoEnv).1 (by decide),
   by decide⟩

/-- Claim C9: `extract_description` never raises and returns the fixed
fallback whenever the read fails (for any reason), the file has no
non-blank line (empty or whitespace-only content), or the first non-blank
line reduces to the empty string after header-marker stripping.  Totality
of the embedding gives absence of exceptions; the hypothesis is vacuous
exactly when the read fails, so every read failure is covered. -/
theorem extract_description_returns_fallback (fs : FileSystem)
    (path : String)
    (h : ∀ c, fs.read path = ReadResult.ok c →
      firstNonBlankLine c = none ∨
      ∃ l, firstNonBlankLine c = some l ∧
        (stripHeaderMarkers l).isEmpty = true) :
    extract_description fs path = fallbackDescription := by
  unfold extract_description
  cases hr : fs.read path with
  | ok c =>
    dsimp only
    rcases h c hr with hn | ⟨l, hl, he⟩
    · rw [hn]
    · rw [hl]
      simp [he]
  | fileNotFound => rfl
  | permissionDenied => rfl
  | decodeError d => rfl
  | osError d => rfl

/-- Witness for C9: a whitespace-only file degrades to the fallback. -/
theorem extract_description_returns_fallback_witness :
    extract_description wsFS "/w.md" = fallbackDescription :=
  extract_description_returns_fallback wsFS "/w.md"
    (by
      intro c hc
      have h0 : wsFS.read "/w.md" = ReadResult.ok "   \n\t\n" := by decide
      rw [h0] at hc
      injection hc with h1
      subst h1
      left
      decide)

end Promptcraft
